import Mathlib

/-!
Verification of the codebase-intelligence scanner
(`src/server/services/codebase_service.py`, `src/server/api_routes/codebase_api.py`,
`src/mcp_server/features/codebase/codebase_tools.py`).

The filesystem is modelled as a flat finite collection: a list of files, each
carrying its absolute path as a list of segments together with an optional text
content (`none` models a file whose read or decode raises), and a list of
directory paths.  `pathlib` is an external library, so its operations
(`rglob("*.py")`, `iterdir`, `exists`, `relative_to`, `read_text`) are modelled
semantically over this flat structure: `rglob` from a root returns the files
strictly below the root whose final segment ends in `.py` (directories whose
names happen to match the glob are not modelled), `iterdir` returns the
children, and reading a file yields its content when it is readable.
String operations (`startswith`, `endswith`, substring membership,
`splitlines`) are given explicit character-list implementations so that every
definition evaluates inside the kernel; file contents are assumed to use only
the newline character as a line terminator (as produced by `read_text`'s
universal-newline translation; the rarer Unicode line boundaries recognised by
`str.splitlines` are outside the model).
-/

/-- A file on disk: absolute path segments plus its text content, where `none`
models a file whose read or decode fails. -/
structure FSFile where
  parts : List String
  content : Option String
deriving DecidableEq

/-- A filesystem: the files, and the directory paths (segment lists). -/
structure FS where
  files : List FSFile
  dirs : List (List String)
deriving DecidableEq

/-- Last path segment of a file (its base name). -/
def fileName (f : FSFile) : String := f.parts.getLast?.getD ""

/-- Boolean suffix test on strings via their character lists. -/
def strEndsWith (s suf : String) : Bool := suf.data.isSuffixOf s.data

/-- Boolean test for a leading dot, modelling Python `name.startswith(".")`. -/
def strStartsWithDot (s : String) : Bool :=
  match s.data with
  | c :: _ => c == '.'
  | [] => false

/-- Boolean prefix test on character lists. -/
def charsIsPrefix : List Char → List Char → Bool
  | [], _ => true
  | _ :: _, [] => false
  | a :: xs, b :: ys => a == b && charsIsPrefix xs ys

/-- Boolean substring-occurrence test on character lists. -/
def charsIsInfix (pat : List Char) : List Char → Bool
  | [] => pat.isEmpty
  | c :: cs => charsIsPrefix pat (c :: cs) || charsIsInfix pat cs

/-- Substring membership, modelling Python `pat in hay`. -/
def containsSub (hay pat : String) : Bool := charsIsInfix pat.data hay.data

/-- Models `path.rglob("*.py")` from `_find_python_files` and
`_analyze_structure`: the files strictly below `root` whose name ends in
`.py`, in the order the filesystem lists them. -/
def rglobPy (root : List String) (fs : FS) : List FSFile :=
  fs.files.filter
    (fun f =>
      root.isPrefixOf f.parts && decide (root.length < f.parts.length) &&
        strEndsWith (fileName f) ".py")

/-- The fixed ignore set of `CodebaseService._find_python_files`. -/
def ignore_patterns : List String :=
  [".venv", "venv", "env", "__pycache__", ".git", "node_modules",
   ".pytest_cache", ".mypy_cache", "dist", "build", ".tox"]

/-- Models `CodebaseService._find_python_files`: every `rglob("*.py")` match is
kept unless some ignore pattern occurs among the segments of its (absolute)
path, mirroring `any(pattern in py_file.parts for pattern in ignore_patterns)`. -/
def find_python_files (root : List String) (fs : FS) : List FSFile :=
  (rglobPy root fs).filter
    (fun f => !(ignore_patterns.any (fun pat => f.parts.contains pat)))

/-- Models Python `str.splitlines` restricted to `\n` terminators: splits the
character list at newlines, dropping a trailing empty fragment.  The first
argument accumulates the current (reversed) line. -/
def splitlinesAux : List Char → List Char → List (List Char)
  | acc, [] => if acc.isEmpty then [] else [acc.reverse]
  | acc, c :: cs =>
    if c = '\n' then acc.reverse :: splitlinesAux [] cs
    else splitlinesAux (c :: acc) cs

/-- Number of lines of a text in the sense of `len(text.splitlines())`. -/
def pySplitlinesLen (s : String) : Nat := (splitlinesAux [] s.data).length

/-- Models `CodebaseService._count_lines`: sums `len(read_text().splitlines())`
over the files, and a file whose read fails (content `none`) contributes
nothing and does not stop the loop. -/
def count_lines : List FSFile → Nat
  | [] => 0
  | f :: rest =>
    (match f.content with
     | some s => pySplitlinesLen s
     | none => 0) + count_lines rest

/-- Spec-side line count (refinement comparator, from the spec's words): the
number of newline characters, plus one when there is trailing content not
terminated by a newline. -/
def lineCountSpec (s : String) : Nat :=
  s.data.count '\n' +
    (if s.data.getLast? = some '\n' ∨ s.data = [] then 0 else 1)

/-- The double-quoted main-guard marker searched for by `_find_entry_points`. -/
def dblGuard : String := "if __name__ == \"__main__\""

/-- The single-quote character (code point 39). -/
def squote : Char := Char.ofNat 39

/-- The single-quoted main-guard marker searched for by `_find_entry_points`. -/
def sglGuard : String :=
  "if __name__ == " ++ String.mk [squote] ++ "__main__" ++ String.mk [squote]

/-- A text contains the main guard in either quote style. -/
def hasMainGuard (c : String) : Bool :=
  containsSub c dblGuard || containsSub c sglGuard

/-- An entry-point record as built by `_find_entry_points`. -/
structure EntryPoint where
  path : String
  type : String
  description : String
deriving DecidableEq

/-- Path of a file relative to the scanned root, rendered with `/` separators,
modelling `str(py_file.relative_to(root_path))`. -/
def relPathOf (root : List String) (f : FSFile) : String :=
  String.intercalate "/" (f.parts.drop root.length)

/-- The entry-point record `_find_entry_points` appends for a matching file:
relative path, the fixed tag `cli_entry`, and a description naming the file's
base name (`relative_path.name`). -/
def mkEntryPoint (root : List String) (f : FSFile) : EntryPoint :=
  { path := relPathOf root f
    type := "cli_entry"
    description := "Entry point in " ++ (f.parts.drop root.length).getLast?.getD "" }

/-- Contribution of one file to the entry-point list: one record when the
content is readable and contains the main guard in either quote style, nothing
otherwise (an unreadable file is skipped by the `except` block). -/
def entryOf (root : List String) (f : FSFile) : List EntryPoint :=
  match f.content with
  | some c => if hasMainGuard c then [mkEntryPoint root f] else []
  | none => []

/-- Models `CodebaseService._find_entry_points`: the per-file contributions in
scan order. -/
def find_entry_points (root : List String) : List FSFile → List EntryPoint
  | [] => []
  | f :: rest => entryOf root f ++ find_entry_points root rest

/-- Value of one `directory_structure` entry (`"type"`/`"python_file_count"`
keys of the Python dict). -/
structure DirInfo where
  type : String
  python_file_count : Nat
deriving DecidableEq

/-- Models `CodebaseService._analyze_structure`: every immediate child
directory of the root whose name does not start with a dot is mapped to the
count of all `.py` files recursively beneath it (note: `item.rglob("*.py")`
applies no ignore filtering). -/
def analyze_structure (root : List String) (fs : FS) : List (String × DirInfo) :=
  fs.dirs.filterMap
    (fun d =>
      if root.isPrefixOf d && d.length == root.length + 1 then
        if strStartsWithDot (d.getLast?.getD "") then none
        else some (d.getLast?.getD "",
          { type := "directory", python_file_count := (rglobPy d fs).length })
      else none)

/-- True when a path exists on the filesystem (as a file or a directory),
modelling `Path.exists()`. -/
def pathExists (fs : FS) (p : List String) : Bool :=
  fs.files.any (fun f => f.parts == p) || fs.dirs.any (fun d => d == p)

/-- Content of the file at a path when it exists and is readable, else `none`
(a missing manifest and one whose read raises are both skipped by
`_detect_tech_stack`). -/
def readTextFile (fs : FS) (p : List String) : Option String :=
  match fs.files.find? (fun f => f.parts == p) with
  | some f => f.content
  | none => none

/-- Case-insensitive keyword test against an optional manifest content,
modelling `keyword in content.lower()` with a missing or unreadable manifest
matching nothing. -/
def manifestHas (oc : Option String) (k : String) : Bool :=
  match oc with
  | some c => containsSub c.toLower k
  | none => false

/-- The three tech-stack buckets. -/
structure TechStack where
  frameworks : List String
  databases : List String
  tools : List String
deriving DecidableEq

/-- Models `CodebaseService._detect_tech_stack`: keyword checks against
`requirements.txt` and `pyproject.toml`, plus presence of either Docker file;
each matched tag is appended in the source's order. -/
def detect_tech_stack (root : List String) (fs : FS) : TechStack :=
  let req := readTextFile fs (root ++ ["requirements.txt"])
  let pyp := readTextFile fs (root ++ ["pyproject.toml"])
  let docker :=
    pathExists fs (root ++ ["Dockerfile"]) || pathExists fs (root ++ ["docker-compose.yml"])
  { frameworks :=
      (if manifestHas req "fastapi" then ["FastAPI"] else []) ++
      (if manifestHas req "flask" then ["Flask"] else []) ++
      (if manifestHas req "django" then ["Django"] else [])
    databases :=
      (if manifestHas req "postgresql" || manifestHas req "psycopg" then ["PostgreSQL"] else []) ++
      (if manifestHas req "chromadb" then ["ChromaDB"] else []) ++
      (if manifestHas req "sqlite" then ["SQLite"] else [])
    tools :=
      (if manifestHas req "pytest" then ["pytest"] else []) ++
      (if manifestHas pyp "poetry" then ["Poetry"] else []) ++
      (if manifestHas pyp "uv" then ["uv"] else []) ++
      (if docker then ["Docker"] else []) }

/-- Inserts a comma after every third character of a reversed digit list,
the core of Python's `format(n, ",")`. -/
def commaRev : List Char → List Char
  | a :: b :: c :: d :: rest => a :: b :: c :: ',' :: commaRev (d :: rest)
  | l => l

/-- Decimal rendering of a number with thousands separators, modelling the
`:,` format specifier. -/
def numWithCommas (n : Nat) : String :=
  String.mk (commaRev (toString n).data.reverse).reverse

/-- The analysis record assembled by `analyze_codebase` (the Python dict). -/
structure Analysis where
  codebase_path : String
  project_id : Option String
  analysis_timestamp : String
  total_files : Nat
  total_lines : Nat
  languages : List (String × Nat)
  entry_points : List EntryPoint
  directory_structure : List (String × DirInfo)
  tech_stack : TechStack
  architecture_summary : String
deriving DecidableEq

/-- Models `CodebaseService._generate_summary`: fixed-order sentence parts
joined with `". "` and a trailing period. -/
def generate_summary (a : Analysis) : String :=
  let p1 := ["Python project with " ++ toString a.total_files ++ " files (" ++
    numWithCommas a.total_lines ++ " lines of code)"]
  let p2 := p1 ++ (if a.tech_stack.frameworks.isEmpty then [] else
    ["Uses " ++ String.intercalate ", " a.tech_stack.frameworks ++ " framework"])
  let p3 := p2 ++ (if a.tech_stack.databases.isEmpty then [] else
    ["Databases: " ++ String.intercalate ", " a.tech_stack.databases])
  let p4 := p3 ++ (if a.entry_points.isEmpty then [] else
    ["Found " ++ toString a.entry_points.length ++ " entry point(s)"])
  let p5 := p4 ++ (if a.directory_structure.isEmpty then [] else
    [toString a.directory_structure.length ++ " top-level directories"])
  String.intercalate ". " p5 ++ "."

/-- The analysis assembly of `analyze_codebase` (lines 74-109 of the service):
runs the five analyzers on the validated root and fills the record; the
summary is generated from the otherwise-complete record. -/
def buildAnalysis (resolvedStr : String) (project_id : Option String) (ts : String)
    (root : List String) (fs : FS) : Analysis :=
  let pyFiles := find_python_files root fs
  let base : Analysis :=
    { codebase_path := resolvedStr
      project_id := project_id
      analysis_timestamp := ts
      total_files := pyFiles.length
      total_lines := count_lines pyFiles
      languages := [("Python", pyFiles.length)]
      entry_points := find_entry_points root pyFiles
      directory_structure := analyze_structure root fs
      tech_stack := detect_tech_stack root fs
      architecture_summary := "" }
  { base with architecture_summary := generate_summary base }

/-- What the filesystem says about the requested path after `resolve()`:
missing, present but not a directory, or a directory (with its resolved
string form, its segments, and the filesystem content beneath it). -/
inductive PathState where
  | missing
  | notDirectory
  | directory (resolvedStr : String) (root : List String) (fs : FS)

/-- Behaviour of the store insert (`table(...).insert(...).execute()`):
a stored row, an empty `data` (warning, in-memory record returned), or a
raised store error. -/
inductive InsertOutcome where
  | stored
  | notStored
  | failure (msg : String)

/-- Errors escaping `CodebaseService.analyze_codebase`: the `ValueError`s of
path validation, or a store exception re-raised by the `except` block. -/
inductive ServiceError where
  | invalidPath (msg : String)
  | storeFailure (msg : String)
deriving DecidableEq

/-- The `ValueError` message for a missing path when running inside Docker. -/
def dockerPathMsg (cp : String) : String :=
  "Path not accessible from Docker container: " ++ cp ++
  ". The Archon backend is running in Docker and cannot access host filesystem paths directly. " ++
  "Solutions: (1) Use the mounted path instead: /host-filesystem/... " ++
  "(e.g., /host-filesystem" ++ cp.replace "/Users" "" ++ "), or " ++
  "(2) Run backend locally with `uv run python -m src.server.main`."

/-- Models `CodebaseService.analyze_codebase`: validate the path (raising
`ValueError` for a missing path, with a Docker-specific hint when the process
runs in a container, or for a non-directory), then build the analysis and hand
it to the store; a store failure is re-raised, an empty insert result returns
the in-memory record. -/
def analyze_codebase (inDocker : Bool) (codebase_path : String)
    (project_id : Option String) (ts : String) (ps : PathState)
    (ins : InsertOutcome) : Except ServiceError Analysis :=
  match ps with
  | .missing =>
    if inDocker then .error (.invalidPath (dockerPathMsg codebase_path))
    else .error (.invalidPath ("Path does not exist: " ++ codebase_path))
  | .notDirectory => .error (.invalidPath ("Path is not a directory: " ++ codebase_path))
  | .directory resolvedStr root fs =>
    let analysis := buildAnalysis resolvedStr project_id ts root fs
    match ins with
    | .failure msg => .error (.storeFailure msg)
    | _ => .ok analysis

/-- True exactly when the control flow of `analyze_codebase` reaches the store
insert (line 112): only after both path checks pass. -/
def insert_called (ps : PathState) : Bool :=
  match ps with
  | .directory _ _ _ => true
  | _ => false

/-- Models the `POST /api/codebase/analyze` route: status and detail/message
derived from the service outcome (`ValueError` becomes 400 with the message,
any other exception becomes 500 with a wrapped message). -/
def api_analyze (svc : Except ServiceError Analysis) : Nat × String :=
  match svc with
  | .ok a => (200, "Analyzed " ++ toString a.total_files ++ " files")
  | .error (.invalidPath m) => (400, m)
  | .error (.storeFailure m) => (500, "Failed to analyze codebase: " ++ m)

/-- Shape of the JSON object returned by the MCP tools. -/
structure ToolResponse where
  success : Bool
  error : Option String
  hint : Option String
deriving DecidableEq

/-- The fixed hint of the tool's 400 branch. -/
def analyzeBadPathHint : String :=
  "Ensure codebase_path is an absolute path to an existing directory"

/-- Models the `codebase_analyze` MCP tool's handling of the HTTP response:
200 passes the result through, 400 produces a client-error JSON with the
detail and a fixed hint, anything else a server-error JSON without a hint. -/
def codebase_analyze_tool (status : Nat) (detail : String) : ToolResponse :=
  if status == 200 then { success := true, error := none, hint := none }
  else if status == 400 then
    { success := false, error := some detail, hint := some analyzeBadPathHint }
  else
    { success := false
      error := some ("HTTP " ++ toString status ++ ": " ++ detail)
      hint := none }

/-- Models `CodebaseService.get_project_analyses`: the store query result is
returned as-is (an empty row set becomes the empty list), and a store
exception is re-raised by the `except` block. -/
def get_project_analyses (q : Except String (List Analysis)) :
    Except String (List Analysis) :=
  match q with
  | .ok rows => .ok rows
  | .error e => .error e

/-- Models the `GET /api/codebase/analyses/project/...` route's outcome:
200 on success, 500 wrapping the message when the service raises. -/
def api_get_project_analyses (q : Except String (List Analysis)) : Nat × String :=
  match get_project_analyses q with
  | .ok rows => (200, toString rows.length)
  | .error e => (500, "Failed to fetch analyses: " ++ e)

/-- Models `CodebaseService.get_latest_analysis`: the first returned row, or
`None` when the row set is empty -- and also `None` when the store query
raises, because the `except` block catches the exception and returns `None`. -/
def get_latest_analysis (q : Except String (List Analysis)) : Option Analysis :=
  match q with
  | .ok rows => rows.head?
  | .error _ => none

/-- Models the `GET /api/codebase/analyses/latest` route's outcome: 404 when
the service returns `None`, 200 with the analysis otherwise. -/
def api_get_latest (q : Except String (List Analysis)) : Nat × Option Analysis :=
  match get_latest_analysis q with
  | some a => (200, some a)
  | none => (404, none)

/-! ## Concrete filesystems used by the scenario claims and witnesses -/

/-- The scenario filesystem of C1: `app.py` (3 lines, double-quoted main
guard) at the root and `lib/utils.py` (5 lines, no guard). -/
def c1FS : FS :=
  { files :=
      [ { parts := ["root", "app.py"],
          content := some "import sys\nif __name__ == \"__main__\":\n    main()\n" },
        { parts := ["root", "lib", "utils.py"],
          content := some "def util_a():\n    return 1\n\ndef util_b():\n    return 2\n" } ]
    dirs := [["root"], ["root", "lib"]] }

/-- A root carrying both Docker manifest files and nothing else. -/
def dockerBothFS : FS :=
  { files :=
      [ { parts := ["r", "Dockerfile"], content := some "FROM python:3.12\n" },
        { parts := ["r", "docker-compose.yml"], content := some "services:\n" } ]
    dirs := [["r"]] }

/-- A root whose only `.py` file sits beneath `__pycache__`. -/
def c10FS : FS :=
  { files := [ { parts := ["r", "pkg", "__pycache__", "m.py"], content := some "x\n" } ]
    dirs := [["r"], ["r", "pkg"], ["r", "pkg", "__pycache__"]] }

/-! ## Claim theorems -/

/-- C1: for a root containing `app.py` (3 lines, with a main guard) and
`lib/utils.py` (5 lines, no guard), `analyze_codebase` reports 2 files,
8 lines, exactly one entry point with path `app.py`, and a directory structure
mapping only `lib` to a directory record with file count 1. -/
theorem c1_scenario_analysis :
    ∃ a, analyze_codebase false "/root" none "t0"
        (PathState.directory "/root" ["root"] c1FS) InsertOutcome.stored = Except.ok a ∧
      a.total_files = 2 ∧ a.total_lines = 8 ∧
      a.entry_points =
        [{ path := "app.py", type := "cli_entry", description := "Entry point in app.py" }] ∧
      a.directory_structure = [("lib", { type := "directory", python_file_count := 1 })] :=
  ⟨buildAnalysis "/root" none "t0" ["root"] c1FS, rfl, by decide, by decide, by decide, by decide⟩

/-- C2: when the requested path does not exist, `analyze_codebase` fails with
the path `ValueError` (no analysis value, and the store insert is never
reached), the HTTP route answers 400 with that message, and the MCP tool
produces a JSON object with `success` false, the error detail, and a hint. -/
theorem c2_missing_path (d : Bool) (cp : String) (pid : Option String)
    (ts : String) (ins : InsertOutcome) :
    ∃ m, analyze_codebase d cp pid ts PathState.missing ins =
        Except.error (ServiceError.invalidPath m) ∧
      insert_called PathState.missing = false ∧
      api_analyze (Except.error (ServiceError.invalidPath m)) = (400, m) ∧
      codebase_analyze_tool 400 m =
        { success := false, error := some m, hint := some analyzeBadPathHint } := by
  cases d with
  | false => exact ⟨_, rfl, rfl, rfl, rfl⟩
  | true => exact ⟨_, rfl, rfl, rfl, rfl⟩

/-- Helper: a concatenation of three conditional singletons over distinct
strings never repeats an element. -/
theorem nodup_three_units (b1 b2 b3 : Bool) (x y z : String)
    (hxy : x ≠ y) (hxz : x ≠ z) (hyz : y ≠ z) :
    ((if b1 then [x] else []) ++ (if b2 then [y] else []) ++
      (if b3 then [z] else [])).Nodup := by
  cases b1 <;> cases b2 <;> cases b3 <;> simp_all

/-- Helper: a concatenation of four conditional singletons over distinct
strings never repeats an element. -/
theorem nodup_four_units (b1 b2 b3 b4 : Bool) (w x y z : String)
    (hwx : w ≠ x) (hwy : w ≠ y) (hwz : w ≠ z)
    (hxy : x ≠ y) (hxz : x ≠ z) (hyz : y ≠ z) :
    ((if b1 then [w] else []) ++ (if b2 then [x] else []) ++
      (if b3 then [y] else []) ++ (if b4 then [z] else [])).Nodup := by
  cases b1 <;> cases b2 <;> cases b3 <;> cases b4 <;> simp_all

/-- Helper: every tech-stack bucket is duplicate-free, for every root: each
tag is appended by exactly one guarded statement of `_detect_tech_stack`, and
the tags of a bucket are pairwise distinct strings. -/
theorem tech_stack_nodup (root : List String) (fs : FS) :
    (detect_tech_stack root fs).frameworks.Nodup ∧
    (detect_tech_stack root fs).databases.Nodup ∧
    (detect_tech_stack root fs).tools.Nodup := by
  refine ⟨?_, ?_, ?_⟩
  · exact nodup_three_units _ _ _ _ _ _ (by decide) (by decide) (by decide)
  · exact nodup_three_units _ _ _ _ _ _ (by decide) (by decide) (by decide)
  · exact nodup_four_units _ _ _ _ _ _ _ _
      (by decide) (by decide) (by decide) (by decide) (by decide) (by decide)

/-- C7 counterexample: there is no scanned root at all for which a tech-stack
bucket contains a repeated tag, so the claimed duplicate-preserving behaviour
never occurs (in particular two Docker manifests yield a single `Docker`
entry, appended by one `if` guarded by the disjunction of both file checks). -/
theorem c7_counterexample :
    ¬ ∃ (root : List String) (fs : FS),
        ¬ ((detect_tech_stack root fs).frameworks.Nodup ∧
           (detect_tech_stack root fs).databases.Nodup ∧
           (detect_tech_stack root fs).tools.Nodup) := by
  rintro ⟨root, fs, h⟩
  exact h (tech_stack_nodup root fs)

/-- C7 (amended): tech-stack buckets never contain a repeated tag -- each tag
is appended at most once per scan -- and a root carrying both Docker manifest
files gets the `Docker` tag exactly once. -/
theorem c7_amended_no_duplicates (root : List String) (fs : FS) :
    ((detect_tech_stack root fs).frameworks.Nodup ∧
     (detect_tech_stack root fs).databases.Nodup ∧
     (detect_tech_stack root fs).tools.Nodup) ∧
    detect_tech_stack ["r"] dockerBothFS =
      { frameworks := [], databases := [], tools := ["Docker"] } :=
  ⟨tech_stack_nodup root fs, by decide⟩

/-- C8 counterexample: a store read error on the latest-analysis query is
swallowed by the service (`except` returns `None`) and surfaces as a 404
not-found, not as a 500 server error. -/
theorem c8_counterexample :
    get_latest_analysis (Except.error "connection reset") = none ∧
    api_get_latest (Except.error "connection reset") = (404, none) ∧
    (api_get_latest (Except.error "connection reset")).1 ≠ 500 :=
  ⟨rfl, rfl, by decide⟩

/-- C8 (amended): store failures during analyze and during the project-analyses
query propagate to the caller as 500 server errors whose detail includes the
underlying message, but a store read failure on the latest-analysis query is
converted by the service into `None` and by the HTTP surface into a 404
not-found result. -/
theorem c8_amended_propagation (m : String) (d : Bool) (cp : String)
    (pid : Option String) (ts : String) (res : String) (root : List String) (fs : FS) :
    analyze_codebase d cp pid ts (PathState.directory res root fs)
        (InsertOutcome.failure m) = Except.error (ServiceError.storeFailure m) ∧
    api_analyze (Except.error (ServiceError.storeFailure m)) =
      (500, "Failed to analyze codebase: " ++ m) ∧
    (codebase_analyze_tool 500 ("Failed to analyze codebase: " ++ m)).success = false ∧
    api_get_project_analyses (Except.error m) = (500, "Failed to fetch analyses: " ++ m) ∧
    get_latest_analysis (Except.error m) = none ∧
    api_get_latest (Except.error m) = (404, none) :=
  ⟨rfl, rfl, rfl, rfl, rfl, rfl⟩

/-- Helper: for a nonempty input the line-split length does not depend on the
accumulated partial line. -/
theorem splitlinesAux_length_indep (cs : List Char) :
    ∀ (c : Char) (acc acc' : List Char),
      (splitlinesAux acc (c :: cs)).length = (splitlinesAux acc' (c :: cs)).length := by
  induction cs with
  | nil =>
    intro c acc acc'
    by_cases hc : c = '\n' <;> simp [splitlinesAux, hc]
  | cons d ds ih =>
    intro c acc acc'
    by_cases hc : c = '\n'
    · simp [splitlinesAux, hc]
    · simp only [splitlinesAux, if_neg hc]
      exact ih d (c :: acc) (c :: acc')

/-- Helper: `len(splitlines())` equals the newline count plus one for trailing
unterminated content. -/
theorem splitlinesAux_length_spec (cs : List Char) :
    (splitlinesAux [] cs).length =
      cs.count '\n' + (if cs.getLast? = some '\n' ∨ cs = [] then 0 else 1) := by
  induction cs with
  | nil => simp [splitlinesAux]
  | cons c cs ih =>
    by_cases hc : c = '\n'
    · subst hc
      have hstep : splitlinesAux [] ('\n' :: cs) =
          List.reverse [] :: splitlinesAux [] cs := by
        rw [splitlinesAux, if_pos rfl]
      cases cs with
      | nil => simp [hstep, splitlinesAux]
      | cons d ds =>
        rw [hstep, List.length_cons, ih]
        simp only [List.count_cons, List.getLast?_cons_cons, List.cons_ne_nil,
          or_false, beq_self_eq_true, if_true]
        omega
    · have hstep : splitlinesAux [] (c :: cs) = splitlinesAux [c] cs := by
        rw [splitlinesAux, if_neg hc]
      have hcf : (c == '\n') = false := by simpa using hc
      cases cs with
      | nil =>
        rw [hstep]
        simp [splitlinesAux, List.count_cons, hcf, hc]
      | cons d ds =>
        rw [hstep]
        have h2 : (splitlinesAux [c] (d :: ds)).length =
            (splitlinesAux [] (d :: ds)).length :=
          splitlinesAux_length_indep ds d [c] []
        rw [h2, ih]
        simp [List.count_cons, List.getLast?_cons_cons, hcf]

/-- C3: the total line count is the sum, over the readable files only, of the
per-file line count in the split-on-newlines sense (newline terminators plus
one for trailing unterminated content); unreadable files are excluded from the
sum and do not interrupt the fold. -/
theorem c3_total_lines (files : List FSFile) :
    count_lines files = ((files.filterMap FSFile.content).map lineCountSpec).sum := by
  induction files with
  | nil => rfl
  | cons f rest ih =>
    cases hc : f.content with
    | none => simp [count_lines, hc, ih]
    | some s =>
      simp [count_lines, hc, ih, pySplitlinesLen, lineCountSpec,
        splitlinesAux_length_spec]

/-- Helper: anything `entryOf` produces is the entry record of that file. -/
theorem mem_entryOf (root : List String) (f : FSFile) (e : EntryPoint)
    (he : e ∈ entryOf root f) : e = mkEntryPoint root f := by
  unfold entryOf at he
  split at he
  · split at he
    · exact List.mem_singleton.mp he
    · simp at he
  · simp at he

/-- Helper: every produced entry point is the record of one of the scanned
files. -/
theorem mem_find_entry_points (root : List String) :
    ∀ (l : List FSFile) (e : EntryPoint), e ∈ find_entry_points root l →
      ∃ f ∈ l, e = mkEntryPoint root f := by
  intro l
  induction l with
  | nil => intro e he; simp [find_entry_points] at he
  | cons f rest ih =>
    intro e he
    rw [find_entry_points, List.mem_append] at he
    rcases he with he | he
    · exact ⟨f, List.mem_cons_self f rest, mem_entryOf root f e he⟩
    · obtain ⟨g, hg, hge⟩ := ih e he
      exact ⟨g, List.mem_cons_of_mem f hg, hge⟩

/-- Helper: no entry survives a path filter whose target is not among the
scanned files' relative paths. -/
theorem filter_entry_points_eq_nil (root : List String) (l : List FSFile)
    (t : String) (h : t ∉ l.map (relPathOf root)) :
    (find_entry_points root l).filter (fun e => e.path == t) = [] := by
  rw [List.filter_eq_nil_iff]
  intro e he
  obtain ⟨f, hf, rfl⟩ := mem_find_entry_points root l e he
  simp only [mkEntryPoint, beq_iff_eq]
  intro ht
  exact h (ht ▸ List.mem_map_of_mem _ hf)

/-- Helper: over any file list with duplicate-free relative paths, a file with
a readable main-guard content contributes exactly one entry, and no other
entry carries its path. -/
theorem filter_find_entry_points (root : List String) :
    ∀ (l : List FSFile) (f : FSFile) (c : String),
      f ∈ l → f.content = some c → hasMainGuard c = true →
      (l.map (relPathOf root)).Nodup →
      (find_entry_points root l).filter (fun e => e.path == relPathOf root f) =
        [mkEntryPoint root f] := by
  intro l
  induction l with
  | nil => intro f c hf _ _ _; simp at hf
  | cons g rest ih =>
    intro f c hf hc hg hnd
    have hcons := hnd
    rw [List.map_cons, List.nodup_cons] at hcons
    rw [find_entry_points, List.filter_append]
    rcases List.mem_cons.mp hf with rfl | hf'
    · have hhead : (entryOf root f).filter (fun e => e.path == relPathOf root f) =
          [mkEntryPoint root f] := by
        simp [entryOf, hc, hg, mkEntryPoint]
      have htail : (find_entry_points root rest).filter
          (fun e => e.path == relPathOf root f) = [] :=
        filter_entry_points_eq_nil root rest _ hcons.1
      rw [hhead, htail, List.append_nil]
    · have hne : relPathOf root f ≠ relPathOf root g := fun h =>
        hcons.1 (h ▸ List.mem_map_of_mem _ hf')
      have hhead : (entryOf root g).filter (fun e => e.path == relPathOf root f) = [] := by
        rw [List.filter_eq_nil_iff]
        intro e he
        rw [mem_entryOf root g e he]
        simpa [mkEntryPoint] using Ne.symm hne
      rw [hhead, ih f c hf' hc hg hcons.2, List.nil_append]

/-- C4: a collected file whose readable text contains the main guard in either
quote style (or both) produces exactly one entry in the entry-point list: the
entries carrying its relative path are exactly one record with that path, the
fixed `cli_entry` tag, and a description naming the file's base name --
provided the collected relative paths are duplicate-free, as they are on a
real filesystem. -/
theorem c4_entry_point_unique (root : List String) (fs : FS) (f : FSFile)
    (c : String) (hf : f ∈ find_python_files root fs) (hc : f.content = some c)
    (hg : hasMainGuard c = true)
    (hnd : ((find_python_files root fs).map (relPathOf root)).Nodup) :
    (find_entry_points root (find_python_files root fs)).filter
        (fun e => e.path == relPathOf root f) =
      [{ path := relPathOf root f, type := "cli_entry",
         description := "Entry point in " ++ (f.parts.drop root.length).getLast?.getD "" }] :=
  filter_find_entry_points root (find_python_files root fs) f c hf hc hg hnd

/-- The text of the C4 witness file, containing the main guard in both quote
styles. -/
def c4Content : String :=
  "print(1)\n" ++ dblGuard ++ ":\n    go()\n" ++ sglGuard ++ ":\n    run()\n"

/-- The C4 witness file. -/
def c4File : FSFile := { parts := ["r", "both.py"], content := some c4Content }

/-- A root with the double-and-single-quoted guard file and a guardless one. -/
def c4FS : FS :=
  { files := [c4File, { parts := ["r", "plain.py"], content := some "x = 1\n" }]
    dirs := [["r"]] }

/-- Witness for C4 at a file containing the guard in both quote styles. -/
theorem c4_entry_point_unique_witness :
    (c4File ∈ find_python_files ["r"] c4FS ∧ c4File.content = some c4Content ∧
      hasMainGuard c4Content = true ∧
      ((find_python_files ["r"] c4FS).map (relPathOf ["r"])).Nodup) ∧
    (find_entry_points ["r"] (find_python_files ["r"] c4FS)).filter
        (fun e => e.path == relPathOf ["r"] c4File) =
      [{ path := relPathOf ["r"] c4File, type := "cli_entry",
         description := "Entry point in " ++ (c4File.parts.drop 1).getLast?.getD "" }] :=
  ⟨⟨by decide, rfl, by decide, by decide⟩,
   c4_entry_point_unique ["r"] c4FS c4File c4Content (by decide) rfl (by decide) (by decide)⟩

/-- C5: when every collected `.py` file lies under a path segment from the
ignore set, the filtered collection is empty, so the analysis reports zero
total files and an empty entry-point list. -/
theorem c5_all_under_ignored (root : List String) (fs : FS) (res : String)
    (pid : Option String) (ts : String)
    (h : ∀ f ∈ rglobPy root fs, ∃ pat ∈ ignore_patterns, pat ∈ f.parts) :
    find_python_files root fs = [] ∧
    (buildAnalysis res pid ts root fs).total_files = 0 ∧
    (buildAnalysis res pid ts root fs).entry_points = [] := by
  have hempty : find_python_files root fs = [] := by
    rw [find_python_files, List.filter_eq_nil_iff]
    intro f hf
    obtain ⟨pat, hpat, hmem⟩ := h f hf
    simp
    exact ⟨pat, hpat, hmem⟩
  exact ⟨hempty, by simp [buildAnalysis, hempty],
    by simp [buildAnalysis, hempty, find_entry_points]⟩

/-- A root whose only file sits beneath a `.venv` directory. -/
def c5FS : FS :=
  { files := [ { parts := ["p", ".venv", "m.py"], content := some "x = 1\n" } ]
    dirs := [["p"], ["p", ".venv"]] }

/-- Witness for C5 on a root whose only file lies under `.venv`. -/
theorem c5_all_under_ignored_witness :
    (∀ f ∈ rglobPy ["p"] c5FS, ∃ pat ∈ ignore_patterns, pat ∈ f.parts) ∧
    (find_python_files ["p"] c5FS = [] ∧
     (buildAnalysis "/p" none "t0" ["p"] c5FS).total_files = 0 ∧
     (buildAnalysis "/p" none "t0" ["p"] c5FS).entry_points = []) :=
  ⟨by decide, c5_all_under_ignored ["p"] c5FS "/p" none "t0" (by decide)⟩

/-- Helper: inversion of membership in the directory-structure map: the key
names an immediate non-hidden subdirectory of the root and the value is the
raw recursive `.py` count beneath it. -/
theorem mem_analyze_structure (root : List String) (fs : FS) (p : String × DirInfo)
    (hp : p ∈ analyze_structure root fs) :
    (root ++ [p.1]) ∈ fs.dirs ∧ strStartsWithDot p.1 = false ∧
      p.2 = { type := "directory",
              python_file_count := (rglobPy (root ++ [p.1]) fs).length } := by
  unfold analyze_structure at hp
  rw [List.mem_filterMap] at hp
  obtain ⟨d, hd, heq⟩ := hp
  by_cases h1 : (root.isPrefixOf d && d.length == root.length + 1) = true
  · rw [if_pos h1] at heq
    by_cases h2 : strStartsWithDot (d.getLast?.getD "") = true
    · rw [if_pos h2] at heq; exact absurd heq (by simp)
    · rw [if_neg h2] at heq
      simp only [Bool.and_eq_true] at h1
      have hpre : root <+: d := List.isPrefixOf_iff_prefix.mp h1.1
      have hlen : d.length = root.length + 1 := by simpa using h1.2
      obtain ⟨t, ht⟩ := hpre
      have tlen : t.length = 1 := by
        have hl := congrArg List.length ht
        rw [List.length_append] at hl
        omega
      obtain ⟨x, rfl⟩ := List.length_eq_one.mp tlen
      have hname : d.getLast?.getD "" = x := by
        rw [← ht, List.getLast?_concat]
        rfl
      rw [hname] at h2
      rw [Option.some.injEq] at heq
      subst heq
      refine ⟨?_, ?_, ?_⟩
      · simp only [hname, ht]
        exact hd
      · simpa [hname] using Bool.eq_false_iff.mpr h2
      · simp only [hname, ht]
  · rw [if_neg h1] at heq; exact absurd heq (by simp)

/-- C6: every key of the directory-structure map is the non-hidden name of an
immediate subdirectory of the scanned root -- never a hidden directory, never
a non-directory child, and never the root itself. -/
theorem c6_structure_keys (root : List String) (fs : FS) (p : String × DirInfo)
    (hp : p ∈ analyze_structure root fs) :
    strStartsWithDot p.1 = false ∧ (root ++ [p.1]) ∈ fs.dirs ∧
      root ++ [p.1] ≠ root := by
  obtain ⟨hdir, hdot, _⟩ := mem_analyze_structure root fs p hp
  refine ⟨hdot, hdir, fun h => ?_⟩
  have hl := congrArg List.length h
  rw [List.length_append, List.length_singleton] at hl
  omega

/-- Witness for C6 on the scenario filesystem. -/
theorem c6_structure_keys_witness :
    ("lib", ({ type := "directory", python_file_count := 1 } : DirInfo)) ∈
        analyze_structure ["root"] c1FS ∧
      (strStartsWithDot "lib" = false ∧ (["root"] ++ ["lib"]) ∈ c1FS.dirs ∧
        ["root"] ++ ["lib"] ≠ ["root"]) :=
  ⟨by decide, c6_structure_keys ["root"] c1FS
    ("lib", { type := "directory", python_file_count := 1 }) (by decide)⟩

/-- C9: the ignore test runs over segments of the full absolute path, so a
root that itself lies beneath a directory with an ignored name collects
nothing: zero files, zero lines, no entry points, even when `.py` files exist
below the root. -/
theorem c9_ignored_ancestor (root : List String) (fs : FS) (seg : String)
    (res : String) (pid : Option String) (ts : String)
    (h1 : seg ∈ root) (h2 : seg ∈ ignore_patterns) :
    find_python_files root fs = [] ∧
    (buildAnalysis res pid ts root fs).total_files = 0 ∧
    (buildAnalysis res pid ts root fs).total_lines = 0 ∧
    (buildAnalysis res pid ts root fs).entry_points = [] := by
  have hempty : find_python_files root fs = [] := by
    rw [find_python_files, List.filter_eq_nil_iff]
    intro f hf
    have hpred := (List.mem_filter.mp hf).2
    simp only [Bool.and_eq_true] at hpred
    have hpre : root <+: f.parts := List.isPrefixOf_iff_prefix.mp hpred.1.1
    have hmem : seg ∈ f.parts := hpre.subset h1
    simp
    exact ⟨seg, h2, hmem⟩
  exact ⟨hempty, by simp [buildAnalysis, hempty],
    by simp [buildAnalysis, hempty, count_lines],
    by simp [buildAnalysis, hempty, find_entry_points]⟩

/-- A project checked out beneath a directory named `build`. -/
def c9FS : FS :=
  { files := [ { parts := ["home", "build", "proj", "main.py"],
                 content := some "if __name__ == \"__main__\":\n    run()\n" } ]
    dirs := [["home"], ["home", "build"], ["home", "build", "proj"]] }

/-- Witness for C9 on a root beneath a `build` ancestor, with a real `.py`
file present below the root. -/
theorem c9_ignored_ancestor_witness :
    ("build" ∈ ["home", "build", "proj"] ∧ "build" ∈ ignore_patterns ∧
      rglobPy ["home", "build", "proj"] c9FS ≠ []) ∧
    (find_python_files ["home", "build", "proj"] c9FS = [] ∧
     (buildAnalysis "/h" none "t0" ["home", "build", "proj"] c9FS).total_files = 0 ∧
     (buildAnalysis "/h" none "t0" ["home", "build", "proj"] c9FS).total_lines = 0 ∧
     (buildAnalysis "/h" none "t0" ["home", "build", "proj"] c9FS).entry_points = []) :=
  ⟨⟨by decide, by decide, by decide⟩,
   c9_ignored_ancestor ["home", "build", "proj"] c9FS "build" "/h" none "t0"
     (by decide) (by decide)⟩

/-- C10: each directory-structure count is the raw recursive `.py` count with
no ignore filtering, and on a root whose only `.py` file lies beneath
`__pycache__` the reported count (1) strictly exceeds the contribution of that
directory's files to `total_files` (the filtered collection is empty). -/
theorem c10_structure_counts_raw (root : List String) (fs : FS)
    (p : String × DirInfo) (hp : p ∈ analyze_structure root fs) :
    p.2.python_file_count = (rglobPy (root ++ [p.1]) fs).length ∧
    analyze_structure ["r"] c10FS =
      [("pkg", { type := "directory", python_file_count := 1 })] ∧
    find_python_files ["r"] c10FS = [] := by
  refine ⟨?_, by decide, by decide⟩
  rw [(mem_analyze_structure root fs p hp).2.2]

/-- Witness for C10 on the `__pycache__`-only filesystem. -/
theorem c10_structure_counts_raw_witness :
    (("pkg", ({ type := "directory", python_file_count := 1 } : DirInfo)) ∈
        analyze_structure ["r"] c10FS) ∧
    (({ type := "directory", python_file_count := 1 } : DirInfo).python_file_count =
        (rglobPy (["r"] ++ ["pkg"]) c10FS).length ∧
      analyze_structure ["r"] c10FS =
        [("pkg", { type := "directory", python_file_count := 1 })] ∧
      find_python_files ["r"] c10FS = []) :=
  ⟨by decide, c10_structure_counts_raw ["r"] c10FS
    ("pkg", { type := "directory", python_file_count := 1 }) (by decide)⟩
